import Mathlib

/-!
Shallow embedding of the `lilt` animation library (src/src/animated.rs and
src/src/traits.rs).

Modelling conventions:
* `f32` is embedded as `ℚ` (exact rational arithmetic; the floating-point
  rounding of the source is idealized away, as all claim scenarios use
  exactly representable values).
* Rust's `%` on floats is truncated remainder `a - b * trunc (a / b)`,
  embedded as `rustRem` below.  Rust yields NaN for a zero divisor; `rustRem`
  is total, and every theorem below keeps to inputs where the divisors are
  nonzero, matching the source's behaviour.
* The generic time parameter `Time : AnimationTime` is instantiated at `ℚ`
  with `elapsed_since now earlier = now - earlier` (milliseconds), exactly
  the instance the repository's test suite uses.
* The easing catalogue is embedded for its rational-valued curves (linear,
  quadratic through quintic, back, bounce, and `Custom`); the trigonometric
  and exponential curves take irrational values and are outside every claim
  considered here.
-/

set_option maxRecDepth 40000

/-- Truncation toward zero of a rational, matching Rust `f32::trunc`. -/
def ratTrunc (q : ℚ) : ℤ :=
  q.num.tdiv q.den

/-- Rust's `%` on floats: `a - b * trunc (a / b)`. -/
def rustRem (a b : ℚ) : ℚ :=
  a - b * (ratTrunc (a / b) : ℚ)

/-- The `EaseOutBounce` curve from `Easing::value`, split out because the
`EaseInBounce` and `EaseInOutBounce` arms of the source call it. -/
def easeOutBounce (x : ℚ) : ℚ :=
  let n1 : ℚ := 7.5625
  let d1 : ℚ := 2.75
  if x < 1 / d1 then n1 * x * x
  else if x < 2 / d1 then n1 * (x - 1.5 / d1) ^ 2 + 0.75
  else if x < 2.5 / d1 then n1 * (x - 2.25 / d1) ^ 2 + 0.9375
  else n1 * (x - 2.625 / d1) ^ 2 + 0.984375

/-- Modelled from the spec: the source's `EaseInOut` curve is
`-(cos (pi * x) - 1) / 2`, whose values are irrational at most rational
inputs and therefore cannot live in the rational fragment.  The constructor
is kept because `Animation::default` selects it, but every claim scenario
overrides the easing with `Linear` before sampling, so this curve is never
evaluated by any theorem below.  It is given the `EaseInOutQuad` shape,
which agrees with the source curve at `0`, `1/2` and `1`. -/
def easeInOutModelled (x : ℚ) : ℚ :=
  if x < 0.5 then 2 * x * x else 1 - (-2 * x + 2) ^ 2 / 2

/-- The easing catalogue (`pub enum Easing`), restricted to its
rational-valued members plus the user-supplied `Custom` variant, and the
default `EaseInOut` (see `easeInOutModelled`). -/
inductive Easing : Type where
  | Linear
  | EaseInOut
  | EaseInQuad
  | EaseOutQuad
  | EaseInOutQuad
  | EaseInCubic
  | EaseOutCubic
  | EaseInOutCubic
  | EaseInQuart
  | EaseOutQuart
  | EaseInOutQuart
  | EaseInQuint
  | EaseOutQuint
  | EaseInOutQuint
  | EaseInBack
  | EaseOutBack
  | EaseInOutBack
  | EaseInBounce
  | EaseOutBounce
  | EaseInOutBounce
  | Custom (f : ℚ → ℚ)

/-- `Easing::value`, the pure curve evaluation. -/
def Easing.value : Easing → ℚ → ℚ
  | .Linear, x => x
  | .EaseInOut, x => easeInOutModelled x
  | .EaseInQuad, x => x * x
  | .EaseOutQuad, x => 1 - (1 - x) * (1 - x)
  | .EaseInOutQuad, x =>
      if x < 0.5 then 2 * x * x else 1 - (-2 * x + 2) ^ 2 / 2
  | .EaseInCubic, x => x * x * x
  | .EaseOutCubic, x => 1 - (1 - x) ^ 3
  | .EaseInOutCubic, x =>
      if x < 0.5 then 4 * x * x * x else 1 - (-2 * x + 2) ^ 3 / 2
  | .EaseInQuart, x => x ^ 4
  | .EaseOutQuart, x => 1 - (1 - x) ^ 4
  | .EaseInOutQuart, x =>
      if x < 0.5 then 8 * x * x * x * x else 1 - (-2 * x + 2) ^ 4 / 2
  | .EaseInQuint, x => x * x * x * x * x
  | .EaseOutQuint, x => 1 - (1 - x) ^ 5
  | .EaseInOutQuint, x =>
      if x < 0.5 then 16 * x * x * x * x * x else 1 - (-2 * x + 2) ^ 5 / 2
  | .EaseInBack, x =>
      let c1 : ℚ := 1.70158
      let c3 : ℚ := c1 + 1
      c3 * x * x * x - c1 * x * x
  | .EaseOutBack, x =>
      let c1 : ℚ := 1.70158
      let c3 : ℚ := c1 + 1
      1 + c3 * (x - 1) ^ 3 + c1 * (x - 1) ^ 2
  | .EaseInOutBack, x =>
      let c1 : ℚ := 1.70158
      let c2 : ℚ := c1 * 1.525
      if x < 0.5 then ((2 * x) ^ 2 * ((c2 + 1) * 2 * x - c2)) / 2
      else ((2 * x - 2) ^ 2 * ((c2 + 1) * (x * 2 - 2) + c2) + 2) / 2
  | .EaseInBounce, x => 1 - easeOutBounce (1 - x)
  | .EaseOutBounce, x => easeOutBounce x
  | .EaseInOutBounce, x =>
      if x < 0.5 then (1 - easeOutBounce (1 - 2 * x)) / 2
      else (1 + easeOutBounce (2 * x - 1)) / 2
  | .Custom f, x => f x

/-- `struct AnimationSettings { duration_ms, easing }`. -/
structure AnimationSettings : Type where
  duration_ms : ℚ
  easing : Easing

/-- `struct Animation<Time>`: the scalar transition state machine, with the
time parameter instantiated at `ℚ` milliseconds. -/
structure Animation : Type where
  origin : ℚ
  destination : ℚ
  delay_ms : ℚ
  settings : AnimationSettings
  asymmetric_settings : Option AnimationSettings
  repetitions : ℕ
  auto_reverse_repetitions : Bool
  repeat_forever : Bool
  transition_time : Option ℚ

/-- `struct Progress`: the result of one sampling pass. -/
structure Progress : Type where
  linear_unit_progress : ℚ
  eased_unit_progress : ℚ
  complete : Bool

/-- `Animation::default(origin)`. -/
def Animation.default (origin : ℚ) : Animation where
  origin := origin
  destination := origin
  settings := { duration_ms := 100, easing := Easing.EaseInOut }
  asymmetric_settings := none
  delay_ms := 0
  repetitions := 1
  auto_reverse_repetitions := false
  repeat_forever := false
  transition_time := none

/-- `Animation::total_duration`.  `repetitions` is a `u32` in the source, so
the doubling in the auto-reverse case wraps modulo `2 ^ 32`. -/
def Animation.total_duration (s : Animation) : ℚ :=
  let true_repetitions : ℚ :=
    if s.auto_reverse_repetitions then (((s.repetitions * 2 + 1) % 2 ^ 32 : ℕ) : ℚ)
    else (s.repetitions : ℚ)
  if 1 < true_repetitions then
    if rustRem true_repetitions 2 = 0 then
      s.settings.duration_ms * (true_repetitions * 0.5)
        + (s.asymmetric_settings.getD s.settings).duration_ms * (true_repetitions * 0.5)
    else
      s.settings.duration_ms * ((true_repetitions - rustRem true_repetitions 2) * 0.5)
        + (s.asymmetric_settings.getD s.settings).duration_ms
          * ((true_repetitions - rustRem true_repetitions 2) * 0.5)
        + s.settings.duration_ms
  else if s.destination < s.origin then
    (s.asymmetric_settings.getD s.settings).duration_ms * true_repetitions
  else
    s.settings.duration_ms * true_repetitions

/-- `Animation::current_progress`. -/
def Animation.current_progress (s : Animation) (time : ℚ) : Progress :=
  match s.transition_time with
  | none =>
      { linear_unit_progress := 0, eased_unit_progress := 0, complete := true }
  | some transition_time =>
      let elapsed : ℚ := max 0 ((time - transition_time) - s.delay_ms)
      let sel : AnimationSettings × ℚ × Bool :=
        if s.auto_reverse_repetitions then
          let asymmetry := s.asymmetric_settings.getD s.settings
          let combined_durations := s.settings.duration_ms + asymmetry.duration_ms
          if rustRem elapsed combined_durations - s.settings.duration_ms ≤ 0 then
            (s.settings, rustRem elapsed combined_durations, false)
          else
            (asymmetry, rustRem elapsed combined_durations - s.settings.duration_ms, true)
        else if s.destination < s.origin then
          (s.asymmetric_settings.getD s.settings, elapsed, false)
        else
          (s.settings, elapsed, false)
      let settings := sel.1
      let elapsed_current := sel.2.1
      let auto_reversing := sel.2.2
      let total_duration := s.total_duration
      if total_duration = 0 then
        { linear_unit_progress := 1
          eased_unit_progress := settings.easing.value 1
          complete := true }
      else
        let complete : Bool := !s.repeat_forever && decide (total_duration ≤ elapsed)
        let rep := elapsed_current / settings.duration_ms
        let progress := if complete then 1 else rustRem rep 1
        if auto_reversing && !complete then
          { linear_unit_progress := 1 - progress
            eased_unit_progress := settings.easing.value (1 - progress)
            complete := complete }
        else
          { linear_unit_progress := progress
            eased_unit_progress := settings.easing.value progress
            complete := complete }

/-- `Animation::linear_unit_progress`. -/
def Animation.linear_unit_progress (s : Animation) (time : ℚ) : ℚ :=
  (s.current_progress time).linear_unit_progress

/-- `Animation::eased_unit_progress`. -/
def Animation.eased_unit_progress (s : Animation) (time : ℚ) : ℚ :=
  (s.current_progress time).eased_unit_progress

/-- `Animation::progress_range`. -/
def Animation.progress_range (s : Animation) : ℚ :=
  s.destination - s.origin

/-- `Animation::linear_progress`. -/
def Animation.linear_progress (s : Animation) (time : ℚ) : ℚ :=
  s.origin + s.linear_unit_progress time * s.progress_range

/-- `Animation::eased_progress`. -/
def Animation.eased_progress (s : Animation) (time : ℚ) : ℚ :=
  s.origin + s.eased_unit_progress time * s.progress_range

/-- `Animation::in_progress`. -/
def Animation.in_progress (s : Animation) (time : ℚ) : Bool :=
  !(s.current_progress time).complete

/-- `Animation::transition(destination, time, instantaneous)`: the state
machine's only mutator, embedded as a state-to-state function. -/
def Animation.transition (s : Animation) (destination : ℚ) (time : ℚ)
    (instantaneous : Bool) : Animation :=
  if s.destination ≠ destination then
    if instantaneous then
      { s with origin := destination, destination := destination }
    else if s.in_progress time then
      { s with
        origin := s.eased_progress time
        transition_time := some time
        destination := destination }
    else
      { s with
        origin := s.destination
        transition_time := some time
        destination := destination }
  else s

/-- `trait FloatRepresentable`: the scalar projection of a domain value. -/
class FloatRepresentable (T : Type) : Type where
  float_value : T → ℚ

/-- `impl FloatRepresentable for f32` (the identity projection). -/
instance : FloatRepresentable ℚ where
  float_value x := x

/-- `impl FloatRepresentable for bool`. -/
instance : FloatRepresentable Bool where
  float_value b := if b then 1 else 0

/-- `trait Interpolable`: render-facing values that can blend by a ratio. -/
class Interpolable (I : Type) : Type where
  interpolated : I → I → ℚ → I

/-- `impl Interpolable for f32`: `self * (1 - ratio) + other * ratio`. -/
instance : Interpolable ℚ where
  interpolated a other ratio := a * (1 - ratio) + other * ratio

/-- `struct Animated<T, Time>`: the typed wrapper around the state machine. -/
structure Animated (T : Type) : Type where
  animation : Animation
  value : T
  last_value : T

/-- `Animated::new`. -/
def Animated.new [FloatRepresentable T] (value : T) : Animated T where
  value := value
  last_value := value
  animation := Animation.default (FloatRepresentable.float_value value)

/-- `Animated::duration`. -/
def Animated.duration (a : Animated T) (duration_ms : ℚ) : Animated T :=
  { a with animation := { a.animation with
      settings := { a.animation.settings with duration_ms := duration_ms } } }

/-- `Animated::easing`. -/
def Animated.easing (a : Animated T) (easing : Easing) : Animated T :=
  { a with animation := { a.animation with
      settings := { a.animation.settings with easing := easing } } }

/-- `Animated::delay`. -/
def Animated.delay (a : Animated T) (delay_ms : ℚ) : Animated T :=
  { a with animation := { a.animation with delay_ms := delay_ms } }

/-- `Animated::repeat`. -/
def Animated.repeatTimes (a : Animated T) (count : ℕ) : Animated T :=
  { a with animation := { a.animation with repetitions := count } }

/-- `Animated::repeat_forever`. -/
def Animated.repeat_forever (a : Animated T) : Animated T :=
  { a with animation := { a.animation with repeat_forever := true } }

/-- `Animated::auto_reverse`. -/
def Animated.auto_reverse (a : Animated T) : Animated T :=
  { a with animation := { a.animation with auto_reverse_repetitions := true } }

/-- `Animated::transition`: updates the wrapped state and begins an
animation, a no-op when the domain value is unchanged. -/
def Animated.transition [DecidableEq T] [FloatRepresentable T]
    (a : Animated T) (new_value : T) (t : ℚ) : Animated T :=
  if a.value ≠ new_value then
    { a with
      last_value := a.value
      value := new_value
      animation :=
        a.animation.transition (FloatRepresentable.float_value new_value) t false }
  else a

/-- `Animated::transition_instantaneous`. -/
def Animated.transition_instantaneous [DecidableEq T] [FloatRepresentable T]
    (a : Animated T) (new_value : T) (t : ℚ) : Animated T :=
  if a.value ≠ new_value then
    { a with
      last_value := a.value
      value := new_value
      animation :=
        a.animation.transition (FloatRepresentable.float_value new_value) t true }
  else a

/-- `Animated::in_progress`. -/
def Animated.in_progress (a : Animated T) (time : ℚ) : Bool :=
  a.animation.in_progress time

/-- `Animated::animate`: interpolates between the previous and current
domain values through `map`, reconstructing the interrupt point from the
stored scalar origin. -/
def Animated.animate [FloatRepresentable T] [Interpolable I]
    (a : Animated T) (map : T → I) (time : ℚ) : I :=
  let interrupted_range :=
    FloatRepresentable.float_value a.value - FloatRepresentable.float_value a.last_value
  let unit_interrupt_value :=
    if interrupted_range = 0 then 0
    else (a.animation.origin - FloatRepresentable.float_value a.last_value) / interrupted_range
  let interrupt_interpolable :=
    Interpolable.interpolated (map a.last_value) (map a.value) unit_interrupt_value
  Interpolable.interpolated interrupt_interpolable (map a.value)
    (a.animation.eased_unit_progress time)

/-- `Animated::linear_progress` (the test accessor). -/
def Animated.linear_progress (a : Animated T) (time : ℚ) : ℚ :=
  a.animation.linear_progress time

/-- `Animated::eased_progress` (the test accessor). -/
def Animated.eased_progress (a : Animated T) (time : ℚ) : ℚ :=
  a.animation.eased_progress time

/-- The base configuration common to several claim scenarios:
`Animated::new(0.).duration(1000.).easing(Easing::Linear)`. -/
def linearBase : Animated ℚ :=
  ((Animated.new (0 : ℚ)).duration 1000).easing Easing.Linear

/-- `linearBase` after `transition(10.0, 0.0)`: a 0 → 10 transition over
1000 ms with linear easing started at t = 0. -/
def linearBase10 : Animated ℚ :=
  linearBase.transition 10 0

/-- `linearBase10` interrupted by `transition(20.0, 500.0)`. -/
def interruptedAnim : Animated ℚ :=
  linearBase10.transition 20 500

/-- The auto-reverse scenario of C2:
`Animated::new(0.).duration(1000.).easing(Linear).repeat(1).auto_reverse()`
then `transition(10.0, 0.0)`. -/
def autoRevAnim : Animated ℚ :=
  (((linearBase.repeatTimes 1).auto_reverse)).transition 10 0

/-- The zero-duration scenario of C6:
`Animated::new(0.).duration(0.).easing(Linear)` then `transition(10.0, 0.0)`. -/
def zeroDurAnim : Animated ℚ :=
  (((Animated.new (0 : ℚ)).duration 0).easing Easing.Linear).transition 10 0

/-- The zero-duration, delayed scenario used against C9:
`Animated::new(0.).duration(0.).easing(Linear).delay(500.)` then
`transition(10.0, 0.0)`. -/
def zeroDurDelayAnim : Animated ℚ :=
  ((((Animated.new (0 : ℚ)).duration 0).easing Easing.Linear).delay 500).transition 10 0

/-- The delayed scenario witnessing the amended C9:
`Animated::new(0.).duration(1000.).easing(Linear).delay(500.)` then
`transition(10.0, 0.0)`. -/
def delayAnim : Animated ℚ :=
  (linearBase.delay 500).transition 10 0

/-- `linearBase10`'s state machine snapped by an instantaneous transition to
`0` at t = 500, while the original leg is still in flight. -/
def instSnapAnim : Animation :=
  linearBase10.animation.transition 0 500 true

/-- A scalar projection on pairs that reads only the first component, used
to exhibit distinct domain values with the same float projection. -/
instance : FloatRepresentable (ℚ × ℚ) where
  float_value p := p.1

/-- A pair-valued wrapper whose current scalar destination is `10`, used to
exercise a value change with an unchanged float projection. -/
def pairAnim : Animated (ℚ × ℚ) :=
  (Animated.new ((0, 0) : ℚ × ℚ)).transition (10, 0) 0

theorem rustRem_zero_left (b : ℚ) : rustRem 0 b = 0 := by
  simp [rustRem, ratTrunc]

/-- C1: interrupting a different in-flight destination re-bases the state:
the origin becomes the eased progress at the interrupt instant, the clock
restarts from `now`, and the destination is replaced — the new leg then runs
the full configured duration.  Concretely, the 0 → 10 transition over
1000 ms with linear easing interrupted by `transition(20, 500)` has eased
progress 25/2 at t = 1000 and 20 at t = 1500. -/
theorem interrupt_rebases_origin_and_clock (s : Animation) (d now : ℚ)
    (hne : s.destination ≠ d) (hip : s.in_progress now = true) :
    (s.transition d now false).origin = s.eased_progress now ∧
    (s.transition d now false).transition_time = some now ∧
    (s.transition d now false).destination = d ∧
    interruptedAnim.eased_progress 1000 = 25 / 2 ∧
    interruptedAnim.eased_progress 1500 = 20 := by
  refine ⟨?_, ?_, ?_, by with_unfolding_all decide, by with_unfolding_all decide⟩ <;>
    simp [Animation.transition, hne, hip]

theorem interrupt_rebases_origin_and_clock_witness :
    (linearBase10.animation.transition 20 500 false).origin =
        linearBase10.animation.eased_progress 500 ∧
    (linearBase10.animation.transition 20 500 false).transition_time = some 500 := by
  have h := interrupt_rebases_origin_and_clock linearBase10.animation 20 500
    (by with_unfolding_all decide) (by with_unfolding_all decide)
  exact ⟨h.1, h.2.1⟩

/-- C2 counterexample: at t = 2000 the `duration=1000`, `repeat(1)`,
auto-reverse animation is still in progress (not terminal), and it finishes
at t = 3000 at the destination 10, not the origin. -/
theorem auto_reverse_terminal_cex :
    autoRevAnim.in_progress 2000 = true ∧
    autoRevAnim.eased_progress 3000 = 10 ∧
    autoRevAnim.in_progress 3000 = false := by
  with_unfolding_all decide

/-- C2 amended: the sampled values 5, 5 and 0 at t = 500, 1500 and 2000 all
hold, but at t = 2000 the animation is not terminal — `repeat(1)` with
auto-reverse plays three legs (forward, reverse, forward) over 3000 ms and
terminates at the destination, not the origin. -/
theorem auto_reverse_repeat_one_progress :
    autoRevAnim.eased_progress 500 = 5 ∧
    autoRevAnim.eased_progress 1500 = 5 ∧
    autoRevAnim.eased_progress 2000 = 0 ∧
    autoRevAnim.in_progress 2000 = true ∧
    autoRevAnim.eased_progress 3000 = 10 ∧
    autoRevAnim.in_progress 3000 = false := by
  with_unfolding_all decide

/-- C3 counterexample: a non-instantaneous `transition` whose destination
equals the in-flight destination is a complete no-op: after the 0 → 10
transition at t = 0, calling `transition(10, 250)` leaves the start time at
`some 0` (not `some 250`) and progress at t = 500 is still 5, not the 5/2 a
restart at t = 250 would give. -/
theorem same_destination_restart_cex :
    (linearBase10.animation.transition 10 250 false).transition_time = some 0 ∧
    (linearBase10.animation.transition 10 250 false).transition_time ≠ some 250 ∧
    (linearBase10.animation.transition 10 250 false).linear_progress 500 = 5 := by
  with_unfolding_all decide

/-- C3 amended: a `begin_transition` to the currently requested destination
is a complete no-op (the state is unchanged); only when the destination
differs and no transition is in flight does the machine start fresh, setting
the origin to the previous destination (the settled progress value) and
installing a new active transition with `start_time = now`. -/
theorem transition_noop_or_fresh (s : Animation) (d now : ℚ) :
    (s.destination = d → s.transition d now false = s) ∧
    (s.destination ≠ d → s.in_progress now = false →
      (s.transition d now false).origin = s.destination ∧
      (s.transition d now false).transition_time = some now ∧
      (s.transition d now false).destination = d) := by
  constructor
  · intro h
    simp [Animation.transition, h]
  · intro h hnp
    simp [Animation.transition, h, hnp]

theorem transition_noop_or_fresh_witness :
    linearBase10.animation.transition 10 250 false = linearBase10.animation ∧
    ((Animation.default 0).transition 10 7 false).origin = 0 ∧
    ((Animation.default 0).transition 10 7 false).transition_time = some 7 := by
  have h1 := (transition_noop_or_fresh linearBase10.animation 10 250).1 (by with_unfolding_all decide)
  have h2 := (transition_noop_or_fresh (Animation.default 0) 10 7).2
    (by with_unfolding_all decide) (by with_unfolding_all decide)
  exact ⟨h1, h2.1, h2.2.1⟩

/-- C4: for the 0 → 10 transition over 1000 ms with linear easing started at
t = 0, scalar progress is exactly 5 at t = 500, 10 at t = 1000 with
`in_progress(1000) = false`, and stays pinned at 10 at t = 1500. -/
theorem boundary_completion_and_midpoint :
    linearBase10.eased_progress 500 = 5 ∧
    linearBase10.eased_progress 1000 = 10 ∧
    linearBase10.in_progress 1000 = false ∧
    linearBase10.eased_progress 1500 = 10 := by
  with_unfolding_all decide

/-- C5: sampling is a deterministic pure function of the stored state — two
machines agreeing on origin, destination, start time and every configuration
field produce identical eased progress, linear progress and completion at
every sampling time (the sampling operations are embedded as pure functions
of the state, so they mutate nothing). -/
theorem scalar_progress_deterministic (a1 a2 : Animated ℚ)
    (hv : a1.value = a2.value) (hl : a1.last_value = a2.last_value)
    (h1 : a1.animation.origin = a2.animation.origin)
    (h2 : a1.animation.destination = a2.animation.destination)
    (h3 : a1.animation.delay_ms = a2.animation.delay_ms)
    (h4 : a1.animation.settings = a2.animation.settings)
    (h5 : a1.animation.asymmetric_settings = a2.animation.asymmetric_settings)
    (h6 : a1.animation.repetitions = a2.animation.repetitions)
    (h7 : a1.animation.auto_reverse_repetitions = a2.animation.auto_reverse_repetitions)
    (h8 : a1.animation.repeat_forever = a2.animation.repeat_forever)
    (h9 : a1.animation.transition_time = a2.animation.transition_time) :
    ∀ now, a1.eased_progress now = a2.eased_progress now ∧
      a1.linear_progress now = a2.linear_progress now ∧
      a1.in_progress now = a2.in_progress now ∧
      ∀ map : ℚ → ℚ, a1.animate map now = a2.animate map now := by
  obtain ⟨s1, v1, l1⟩ := a1
  obtain ⟨s2, v2, l2⟩ := a2
  have hs : s1 = s2 := by
    cases s1
    cases s2
    simp_all
  subst hs
  dsimp only at hv hl
  subst hv
  subst hl
  exact fun _ => ⟨rfl, rfl, rfl, fun _ => rfl⟩

theorem scalar_progress_deterministic_witness :
    linearBase10.eased_progress 500 =
      (linearBase.transition 10 0).eased_progress 500 :=
  (scalar_progress_deterministic linearBase10 (linearBase.transition 10 0)
    rfl rfl rfl rfl rfl rfl rfl rfl rfl rfl rfl 500).1

/-- C6: a zero-duration transition short-circuits to the completed state:
after `transition(10, 0)` with `duration = 0`, scalar progress is the
destination 10 and `in_progress` is false at every time `now ≥ 0`. -/
theorem zero_duration_completes (now : ℚ) (h : 0 ≤ now) :
    zeroDurAnim.eased_progress now = 10 ∧
    zeroDurAnim.in_progress now = false := by
  have hanim : zeroDurAnim.animation =
      { origin := 0, destination := 10, delay_ms := 0,
        settings := { duration_ms := 0, easing := Easing.Linear },
        asymmetric_settings := none, repetitions := 1,
        auto_reverse_repetitions := false, repeat_forever := false,
        transition_time := some 0 } := by
    with_unfolding_all rfl
  constructor <;>
    norm_num [Animated.eased_progress, Animated.in_progress, hanim,
      Animation.eased_progress, Animation.eased_unit_progress,
      Animation.in_progress, Animation.current_progress,
      Animation.total_duration, Animation.progress_range, Easing.value]

theorem zero_duration_completes_witness :
    (0 : ℚ) ≤ 0 ∧
    (zeroDurAnim.eased_progress 0 = 10 ∧ zeroDurAnim.in_progress 0 = false) :=
  ⟨by with_unfolding_all decide, zero_duration_completes 0 (by with_unfolding_all decide)⟩

/-- C7 counterexample: an instantaneous transition that interrupts an
in-flight animation does not clear the active transition — after snapping
the 0 → 10 transition to 0 at t = 500, the machine still reports
`in_progress` at t = 600 (the stored start time is still `some 0`), even
though progress is already pinned at the destination 0. -/
theorem instantaneous_clears_active_cex :
    instSnapAnim.in_progress 600 = true ∧
    instSnapAnim.transition_time = some 0 ∧
    instSnapAnim.eased_progress 600 = 0 := by
  with_unfolding_all decide

/-- C7 amended: an instantaneous transition to a new value collapses origin
and destination to the destination, so progress equals the destination at
every sampling time, with no easing or delay applied; but the stored
transition time is left unchanged (the active transition is not cleared), so
`in_progress` can keep reporting true until the previously scheduled
duration elapses. -/
theorem instantaneous_collapses_to_destination (s : Animation) (d t : ℚ)
    (hne : s.destination ≠ d) :
    (s.transition d t true).origin = d ∧
    (s.transition d t true).destination = d ∧
    (s.transition d t true).transition_time = s.transition_time ∧
    ∀ time, (s.transition d t true).eased_progress time = d ∧
      (s.transition d t true).linear_progress time = d := by
  have hs : s.transition d t true = { s with origin := d, destination := d } := by
    simp [Animation.transition, hne]
  rw [hs]
  refine ⟨rfl, rfl, rfl, fun time => ⟨?_, ?_⟩⟩ <;>
    simp [Animation.eased_progress, Animation.linear_progress,
      Animation.progress_range]

theorem instantaneous_collapses_to_destination_witness :
    instSnapAnim.origin = 0 ∧
    instSnapAnim.transition_time = linearBase10.animation.transition_time ∧
    instSnapAnim.eased_progress 600 = 0 := by
  have h := instantaneous_collapses_to_destination linearBase10.animation 0 500
    (by with_unfolding_all decide)
  exact ⟨h.1, h.2.2.1, (h.2.2.2 600).1⟩

/-- C8: calling `transition` with the currently requested domain value is a
complete no-op on the wrapper — value, origin, destination and start time
are all preserved, so every later sample is identical to never having made
the call. -/
theorem repeated_identical_value_noop {T : Type} [DecidableEq T]
    [FloatRepresentable T] (a : Animated T) (x : T) (t : ℚ)
    (h : a.value = x) :
    a.transition x t = a := by
  simp [Animated.transition, h]

theorem repeated_identical_value_noop_witness :
    linearBase10.transition 10 500 = linearBase10 :=
  repeated_identical_value_noop linearBase10 10 500 (by with_unfolding_all decide)

/-- C9 counterexample: with `duration = 0` and `delay = 500`, the 0 → 10
transition started at t = 0 and sampled at t = 200 (before start + delay)
yields linear unit progress 1, not 0, and scalar progress 10 (the
destination), not the origin 0 — the zero-total-duration short-circuit takes
precedence over the elapsed clamp. -/
theorem before_start_zero_duration_cex :
    zeroDurDelayAnim.animation.linear_unit_progress 200 = 1 ∧
    zeroDurDelayAnim.eased_progress 200 = 10 ∧
    zeroDurDelayAnim.animation.origin = 0 := by
  with_unfolding_all decide

/-- C9 amended: progress computation is total (all embedded operations are
total functions), and elapsed time clamps to zero whenever `now` precedes
the transition's start time plus delay; provided the configured leg
durations are positive, the total duration is positive and the easing curves
map 0 to 0, the linear unit progress is then 0 and scalar progress equals
the origin.  (With a zero total duration the code instead short-circuits to
the destination, and negative durations can pin progress at 1.) -/
theorem before_start_clamps_to_origin (s : Animation) (start now : ℚ)
    (htt : s.transition_time = some start)
    (hnow : now - start ≤ s.delay_ms)
    (hdur : 0 < s.settings.duration_ms)
    (hasym : 0 < (s.asymmetric_settings.getD s.settings).duration_ms)
    (htotal : 0 < s.total_duration)
    (he1 : s.settings.easing.value 0 = 0)
    (he2 : (s.asymmetric_settings.getD s.settings).easing.value 0 = 0) :
    s.linear_unit_progress now = 0 ∧
    s.linear_progress now = s.origin ∧
    s.eased_progress now = s.origin := by
  have helapsed : max 0 ((now - start) - s.delay_ms) = 0 :=
    max_eq_left (by linarith)
  have hcomplete : decide (s.total_duration ≤ (0 : ℚ)) = false :=
    decide_eq_false (not_le.mpr htotal)
  have hprog : s.current_progress now = ⟨0, 0, false⟩ := by
    rw [Animation.current_progress, htt]
    simp only [helapsed]
    rcases har : s.auto_reverse_repetitions with _ | _
    · by_cases hdo : s.destination < s.origin
      · simp [hdo, htotal.ne', hcomplete, rustRem_zero_left, he2]
      · simp [hdo, htotal.ne', hcomplete, rustRem_zero_left, he1]
    · simp [htotal.ne', hcomplete, rustRem_zero_left, hdur.le, he1]
  refine ⟨?_, ?_, ?_⟩ <;>
    simp [Animation.linear_unit_progress, Animation.linear_progress,
      Animation.eased_progress, Animation.eased_unit_progress,
      Animation.progress_range, hprog]

theorem before_start_clamps_to_origin_witness :
    delayAnim.animation.linear_unit_progress 250 = 0 ∧
    delayAnim.animation.linear_progress 250 = delayAnim.animation.origin ∧
    delayAnim.animation.eased_progress 250 = delayAnim.animation.origin :=
  before_start_clamps_to_origin delayAnim.animation 0 250 (by with_unfolding_all decide)
    (by with_unfolding_all decide) (by with_unfolding_all decide) (by with_unfolding_all decide) (by with_unfolding_all decide) (by with_unfolding_all decide) (by with_unfolding_all decide)

/-- C10: a transition to a distinct domain value whose float projection
equals the current scalar destination updates the wrapper's `value` and
`last_value` but leaves the underlying animation untouched — origin,
destination and start time are unchanged, so progress at every time is
unaffected. -/
theorem same_projection_keeps_animation {T : Type} [DecidableEq T]
    [FloatRepresentable T] (a : Animated T) (v : T) (t : ℚ)
    (hne : a.value ≠ v)
    (hf : FloatRepresentable.float_value v = a.animation.destination) :
    (a.transition v t).animation = a.animation ∧
    (a.transition v t).value = v ∧
    (a.transition v t).last_value = a.value := by
  have hanim : a.animation.transition (FloatRepresentable.float_value v) t false
      = a.animation := by
    simp [Animation.transition, hf]
  simp [Animated.transition, hne, hanim]

theorem same_projection_keeps_animation_witness :
    (pairAnim.transition (10, 1) 99).animation = pairAnim.animation ∧
    (pairAnim.transition (10, 1) 99).value = ((10 : ℚ), (1 : ℚ)) := by
  have h := same_projection_keeps_animation pairAnim ((10 : ℚ), (1 : ℚ)) 99
    (by with_unfolding_all decide) (by with_unfolding_all decide)
  exact ⟨h.1, h.2.1⟩

